import Mathlib

/-!
Shallow embedding of src/src/crypto/crypto_x509.cc (the X509Certificate
native binding: decoding, identity verification, cross-context transfer).

The OpenSSL primitives (X509_check_host, X509_check_email, X509_check_ip_asc,
X509_check_issued, X509_check_private_key, X509_verify, PEM/DER decoding,
X509_dup) are external collaborators: each embedded function takes the
primitive as an explicit function argument, and the theorems quantify over
it, since the code under verification only dispatches on the primitive
result codes.

Machine details abstracted: a raw X509* is an object id (Nat); v8 values
that carry strings are String; byte buffers are List Nat; allocation
failure (out of memory inside v8 or OpenSSL) is not modelled, so
allocating helpers are total.
-/

namespace crypto

/-- A raw X509 object handle (OpenSSL X509*), identified by an object id. -/
abbrev X509 := Nat

/-- The caller-visible outcome of CheckHost / CheckEmail / CheckIP:
the four-way taxonomy of src lines 350-370: a match carrying a string,
silent no-match (no return value set), ERR_INVALID_ARG_VALUE for return
code -2, and ERR_CRYPTO_OPERATION_FAILED for every other code. -/
inductive CheckResult where
  | Match (value : String)
  | NoMatch
  | InvalidName
  | OperationFailed
  deriving DecidableEq

namespace X509Certificate

/-- X509Certificate::CheckHost (src lines 338-371): calls
X509_check_host(cert, name, name.length, flags, &peername) and switches on
the return code.  The primitive is passed as a function from
(cert, name, flags) to (return code, peername out-parameter); the length
argument of the C call is determined by name and therefore not a separate
argument.  On code 1 the returned value is the caller name unless the
primitive produced a non-null peername, in which case that string is
returned; code 0 sets no return value; code -2 throws
ERR_INVALID_ARG_VALUE; any other code throws ERR_CRYPTO_OPERATION_FAILED. -/
def CheckHost (prim : X509 → String → Nat → Int × Option String)
    (cert : X509) (name : String) (flags : Nat) : CheckResult :=
  let r := prim cert name flags
  if r.1 = 1 then
    match r.2 with
    | some peername => CheckResult.Match peername
    | none => CheckResult.Match name
  else if r.1 = 0 then CheckResult.NoMatch
  else if r.1 = -2 then CheckResult.InvalidName
  else CheckResult.OperationFailed

/-- X509Certificate::CheckEmail (src lines 373-398): calls
X509_check_email(cert, name, name.length, flags) and switches on the return
code exactly as CheckHost does, except that there is no peername
out-parameter: a match always returns args[0], the caller input string. -/
def CheckEmail (prim : X509 → String → Nat → Int)
    (cert : X509) (name : String) (flags : Nat) : CheckResult :=
  let r := prim cert name flags
  if r = 1 then CheckResult.Match name
  else if r = 0 then CheckResult.NoMatch
  else if r = -2 then CheckResult.InvalidName
  else CheckResult.OperationFailed

/-- X509Certificate::CheckIP (src lines 400-421): calls
X509_check_ip_asc(cert, name, flags) and switches on the return code the
same way; a match returns args[0], the caller input string. -/
def CheckIP (prim : X509 → String → Nat → Int)
    (cert : X509) (name : String) (flags : Nat) : CheckResult :=
  let r := prim cert name flags
  if r = 1 then CheckResult.Match name
  else if r = 0 then CheckResult.NoMatch
  else if r = -2 then CheckResult.InvalidName
  else CheckResult.OperationFailed

end X509Certificate

/-- C1: every CheckHost call yields exactly one of the four outcomes, fully
determined by the matching primitive return code: code 1 yields Match with
some value, code 0 yields NoMatch, code -2 yields InvalidName, and every
other code yields OperationFailed; the four characterizing conditions are
mutually exclusive, so no two outcomes are conflated. -/
theorem checkHost_four_way (prim : X509 → String → Nat → Int × Option String)
    (cert : X509) (name : String) (flags : Nat) :
    ((∃ v, X509Certificate.CheckHost prim cert name flags = CheckResult.Match v)
        ↔ (prim cert name flags).1 = 1) ∧
    (X509Certificate.CheckHost prim cert name flags = CheckResult.NoMatch
        ↔ (prim cert name flags).1 = 0) ∧
    (X509Certificate.CheckHost prim cert name flags = CheckResult.InvalidName
        ↔ (prim cert name flags).1 = -2) ∧
    (X509Certificate.CheckHost prim cert name flags = CheckResult.OperationFailed
        ↔ ((prim cert name flags).1 ≠ 1 ∧ (prim cert name flags).1 ≠ 0 ∧
            (prim cert name flags).1 ≠ -2)) := by
  unfold X509Certificate.CheckHost
  rcases h : prim cert name flags with ⟨r, pn⟩
  by_cases h1 : r = 1
  · subst h1
    cases pn <;> simp
  · by_cases h0 : r = 0
    · subst h0
      simp
    · by_cases h2 : r = -2
      · subst h2
        simp
      · simp [h1, h0, h2]

/-- Witness for C1 at a primitive that returns code 0. -/
theorem checkHost_four_way_witness :
    X509Certificate.CheckHost (fun _ _ _ => (0, none)) 0 "a" 0
      = CheckResult.NoMatch :=
  (checkHost_four_way (fun _ _ _ => (0, none)) 0 "a" 0).2.1.mpr rfl

/-- C3: when CheckHost results in Match, the returned value is the caller
name argument verbatim, unless the primitive reported a certificate-stored
name through the peername out-parameter, in which case that stored name is
returned instead (Option.getD collapses the two cases). -/
theorem checkHost_match_value (prim : X509 → String → Nat → Int × Option String)
    (cert : X509) (name : String) (flags : Nat)
    (h : (prim cert name flags).1 = 1) :
    X509Certificate.CheckHost prim cert name flags
      = CheckResult.Match ((prim cert name flags).2.getD name) := by
  unfold X509Certificate.CheckHost
  rcases hp : prim cert name flags with ⟨r, pn⟩
  rw [hp] at h
  simp at h
  subst h
  cases pn <;> simp

/-- Witness for C3: with a peername reported, the stored name wins. -/
theorem checkHost_match_value_witness :
    X509Certificate.CheckHost (fun _ _ _ => (1, some "stored.example")) 0 "in" 0
      = CheckResult.Match "stored.example" :=
  checkHost_match_value (fun _ _ _ => (1, some "stored.example")) 0 "in" 0 rfl

/-- C10: whenever CheckEmail or CheckIP results in Match, the carried value
is exactly the caller input string: neither operation consults a peername
out-parameter, so no certificate-stored name is ever substituted. -/
theorem checkEmail_checkIP_match_verbatim
    (primE primI : X509 → String → Nat → Int)
    (cert : X509) (name : String) (flags : Nat) (v : String) :
    (X509Certificate.CheckEmail primE cert name flags = CheckResult.Match v
        → v = name) ∧
    (X509Certificate.CheckIP primI cert name flags = CheckResult.Match v
        → v = name) := by
  unfold X509Certificate.CheckEmail X509Certificate.CheckIP
  constructor
  · by_cases h1 : primE cert name flags = 1
    · simp [h1]
      intro h
      exact h.symm
    · by_cases h0 : primE cert name flags = 0
      · simp [h1, h0]
      · by_cases h2 : primE cert name flags = -2 <;> simp [h1, h0, h2]
  · by_cases h1 : primI cert name flags = 1
    · simp [h1]
      intro h
      exact h.symm
    · by_cases h0 : primI cert name flags = 0
      · simp [h1, h0]
      · by_cases h2 : primI cert name flags = -2 <;> simp [h1, h0, h2]

/-- Witness for C10 at matching primitives: the match value is the caller
input. -/
theorem checkEmail_checkIP_match_verbatim_witness :
    X509Certificate.CheckEmail (fun _ _ _ => 1) 0 "a@b" 0
        = CheckResult.Match "a@b" ∧
    "a@b" = "a@b" :=
  ⟨rfl, (checkEmail_checkIP_match_verbatim (fun _ _ _ => 1) (fun _ _ _ => 1)
    0 "a@b" 0 "a@b").1 rfl⟩

namespace X509Certificate

/-- X509Certificate::Parse (src lines 169-201): tries
PEM_read_bio_X509_AUX on the input first; on failure tries d2i_X509 on the
original data pointer and length (the buffer is re-read from the start, not
a partially consumed stream).  The comment in the source states the
contract: Try as DER, but return the original PEM failure if it is not DER.
The mechanism is the OpenSSL error queue: the failed PEM attempt pushes its
diagnostic first, MarkPopErrorOnReturn marks the queue before the DER
attempt, and ThrowCryptoError(env, ERR_get_error()) reports the OLDEST
queued error, which is the PEM one.  Each decoder is modelled as a function
from the input bytes to Except, the error side carrying the diagnostic that
decoder would queue.  LoadBIO allocation failure is an out-of-memory path
and is not modelled. -/
def Parse (pemDecode derDecode : List Nat → Except String X509)
    (bytes : List Nat) : Except String X509 :=
  match pemDecode bytes with
  | Except.ok cert => Except.ok cert
  | Except.error pemErr =>
    match derDecode bytes with
    | Except.ok cert => Except.ok cert
    | Except.error _ => Except.error pemErr

end X509Certificate

/-- C2: Parse attempts the textual (PEM, AUX-aware) decoding first; if that
fails it attempts the binary (DER) decoding on the same original input
bytes; and when both fail, the reported error is the diagnostic of the
first (PEM) attempt, whatever diagnostic the DER attempt produced. -/
theorem parse_fallback_first_error
    (pemDecode derDecode : List Nat → Except String X509) (bytes : List Nat) :
    (∀ c, pemDecode bytes = Except.ok c →
        X509Certificate.Parse pemDecode derDecode bytes = Except.ok c) ∧
    (∀ e c, pemDecode bytes = Except.error e → derDecode bytes = Except.ok c →
        X509Certificate.Parse pemDecode derDecode bytes = Except.ok c) ∧
    (∀ e e2, pemDecode bytes = Except.error e → derDecode bytes = Except.error e2 →
        X509Certificate.Parse pemDecode derDecode bytes = Except.error e) := by
  refine ⟨?_, ?_, ?_⟩
  · intro c h
    unfold X509Certificate.Parse
    rw [h]
  · intro e c hp hd
    unfold X509Certificate.Parse
    rw [hp, hd]
  · intro e e2 hp hd
    unfold X509Certificate.Parse
    rw [hp, hd]

/-- Witness for C2: both decoders fail with distinct diagnostics and the
PEM diagnostic is reported. -/
theorem parse_fallback_first_error_witness :
    X509Certificate.Parse (fun _ => Except.error "bad pem")
      (fun _ => Except.error "bad der") [0]
      = Except.error "bad pem" :=
  (parse_fallback_first_error (fun _ => Except.error "bad pem")
    (fun _ => Except.error "bad der") [0]).2.2 "bad pem" "bad der" rfl rfl

/-- The observable key-type tag of a KeyObjectHandle
(KeyObjectData::GetKeyType in the key-object collaborator). -/
inductive KeyType where
  | Public
  | Private
  | Secret
  deriving DecidableEq

/-- A key handle as seen by this translation unit: its type tag and an
abstract id for the underlying asymmetric EVP_PKEY. -/
structure KeyObjectHandle where
  keyType : KeyType
  key : Nat
  deriving DecidableEq

/-- Outcome of a native method whose preconditions are enforced by
CHECK / CHECK_EQ: either a value, or a fatal assertion (the CHECK macro
aborts, a precondition violation). -/
inductive NativeResult (α : Type) where
  | ok (value : α)
  | fatalCheckFailure
  deriving DecidableEq

namespace X509Certificate

/-- X509Certificate::CheckPrivateKey (src lines 438-451):
CHECK_EQ(key->Data()->GetKeyType(), kKeyTypePrivate), then returns the
boolean X509_check_private_key(cert, key) == 1. -/
def CheckPrivateKey (prim : X509 → Nat → Int)
    (cert : X509) (key : KeyObjectHandle) : NativeResult Bool :=
  if key.keyType = KeyType.Private then
    NativeResult.ok (decide (prim cert key.key = 1))
  else NativeResult.fatalCheckFailure

/-- X509Certificate::Verify (src lines 453-466):
CHECK_EQ(key->Data()->GetKeyType(), kKeyTypePublic), then returns the
boolean X509_verify(cert, key) > 0. -/
def Verify (prim : X509 → Nat → Int)
    (cert : X509) (key : KeyObjectHandle) : NativeResult Bool :=
  if key.keyType = KeyType.Public then
    NativeResult.ok (decide (prim cert key.key > 0))
  else NativeResult.fatalCheckFailure

end X509Certificate

/-- C4: CheckPrivateKey hits a fatal assertion whenever the key handle tag
is not Private, Verify hits one whenever the tag is not Public, and under
the correct tag each returns exactly the boolean derived from its library
pairwise check: X509_check_private_key result equal to 1, respectively
X509_verify result strictly positive. -/
theorem key_type_preconditions (primCpk primVer : X509 → Nat → Int)
    (cert : X509) (kp kv : KeyObjectHandle) :
    (kp.keyType ≠ KeyType.Private →
        X509Certificate.CheckPrivateKey primCpk cert kp
          = NativeResult.fatalCheckFailure) ∧
    (kp.keyType = KeyType.Private →
        X509Certificate.CheckPrivateKey primCpk cert kp
          = NativeResult.ok (decide (primCpk cert kp.key = 1))) ∧
    (kv.keyType ≠ KeyType.Public →
        X509Certificate.Verify primVer cert kv
          = NativeResult.fatalCheckFailure) ∧
    (kv.keyType = KeyType.Public →
        X509Certificate.Verify primVer cert kv
          = NativeResult.ok (decide (primVer cert kv.key > 0))) := by
  unfold X509Certificate.CheckPrivateKey X509Certificate.Verify
  refine ⟨?_, ?_, ?_, ?_⟩ <;> intro h <;> simp [h]

/-- Witness for C4: a public-key handle passed to CheckPrivateKey is a
fatal precondition violation. -/
theorem key_type_preconditions_witness :
    X509Certificate.CheckPrivateKey (fun _ _ => 1) 0 ⟨KeyType.Public, 5⟩
      = NativeResult.fatalCheckFailure :=
  (key_type_preconditions (fun _ _ => 1) (fun _ _ => 1) 0
    ⟨KeyType.Public, 5⟩ ⟨KeyType.Public, 5⟩).1 (by decide)

/-- C9: Verify never produces an operation-failed error signal: for every
non-positive return of the signature-check primitive, including every
negative internal-failure code, the caller sees the boolean false, exactly
the same observable as a well-formed failed verification (primitive
returning 0). -/
theorem verify_conflates_internal_failure (cert : X509) (key : KeyObjectHandle)
    (r : Int) (hk : key.keyType = KeyType.Public) (hr : r ≤ 0) :
    X509Certificate.Verify (fun _ _ => r) cert key = NativeResult.ok false ∧
    X509Certificate.Verify (fun _ _ => r) cert key
      = X509Certificate.Verify (fun _ _ => 0) cert key := by
  unfold X509Certificate.Verify
  simp [hk]
  omega

/-- Witness for C9 at the internal-failure code -1. -/
theorem verify_conflates_internal_failure_witness :
    X509Certificate.Verify (fun _ _ => -1) 0 ⟨KeyType.Public, 2⟩
      = NativeResult.ok false :=
  (verify_conflates_internal_failure 0 ⟨KeyType.Public, 2⟩ (-1)
    (by decide) (by decide)).1

/-- The peer-certificate view of an SSL session as read by GetPeerCert:
SSL_get_peer_certificate (the verified peer leaf, or null) and
SSL_get_peer_cert_chain (a STACK_OF(X509) that can itself be null,
modelled as Option of the list of entries in session order). -/
structure SSLSession where
  verifiedPeerLeaf : Option X509
  peerChain : Option (List X509)

namespace X509Certificate

/-- X509Certificate::GetPeerCert (src lines 128-167).  cert is
SSL_get_peer_certificate when the SERVER flag is set, else null; if cert is
null and the chain is null or empty, the result is absent (empty
MaybeLocal).  Otherwise the leading certificate is cert, or chain entry 0
when cert is null; then, unless the ABBREVIATED flag is set, every chain
entry from index 0 is X509_dup-ed and appended after the leading
certificate, in session order (sk_X509_num of a null stack is -1, so the
loop is a no-op when the chain is null).  X509_dup is an external
collaborator passed as a function; its allocation failure and v8
instantiation failure are out-of-memory paths and are not modelled. -/
def GetPeerCert (dup : X509 → X509) (ssl : SSLSession)
    (is_server abbreviated : Bool) : Option (List X509) :=
  let cert : Option X509 := if is_server then ssl.verifiedPeerLeaf else none
  let chain : List X509 := ssl.peerChain.getD []
  if cert = none ∧ chain = [] then none
  else
    let leading : X509 :=
      match cert with
      | some c => c
      | none => chain.headD 0
    some (leading :: (if abbreviated then [] else chain.map dup))

end X509Certificate

/-- C5: GetPeerCert returns the absent signal exactly when there is no peer
certificate information (no verified server-facing leaf and a null or
empty chain); otherwise the leading certificate is the verified leaf when
the role is server-facing and the leaf exists, else the first chain entry;
with abbreviated set, exactly that one leading certificate is returned, and
otherwise the full session-supplied chain is appended after it, each entry
independently duplicated, in session order. -/
theorem getPeerCert_characterization (dup : X509 → X509) (ssl : SSLSession)
    (is_server abbreviated : Bool) :
    (X509Certificate.GetPeerCert dup ssl is_server abbreviated = none ↔
        ((if is_server then ssl.verifiedPeerLeaf else none) = none ∧
          ssl.peerChain.getD [] = [])) ∧
    (∀ c, (if is_server then ssl.verifiedPeerLeaf else none) = some c →
        X509Certificate.GetPeerCert dup ssl is_server abbreviated =
          some (c :: (if abbreviated then []
            else (ssl.peerChain.getD []).map dup))) ∧
    (∀ c rest, (if is_server then ssl.verifiedPeerLeaf else none) = none →
        ssl.peerChain.getD [] = c :: rest →
        X509Certificate.GetPeerCert dup ssl is_server abbreviated =
          some (c :: (if abbreviated then [] else (c :: rest).map dup))) := by
  unfold X509Certificate.GetPeerCert
  refine ⟨?_, ?_, ?_⟩
  · constructor
    · intro h
      by_cases hc : (if is_server then ssl.verifiedPeerLeaf else none) = none ∧
          ssl.peerChain.getD [] = []
      · exact hc
      · simp only [hc, if_neg, if_false] at h
        exact absurd h (by simp)
    · intro h
      simp [h.1, h.2]
  · intro c hc
    have hne : ¬ ((if is_server then ssl.verifiedPeerLeaf else none) = none ∧
        ssl.peerChain.getD [] = []) := by
      intro hcon
      rw [hc] at hcon
      exact absurd hcon.1 (by simp)
    simp only [hne, if_false, hc]
    simp
  · intro c rest hc hchain
    have hne : ¬ ((if is_server then ssl.verifiedPeerLeaf else none) = none ∧
        ssl.peerChain.getD [] = []) := by
      intro hcon
      rw [hchain] at hcon
      exact absurd hcon.2 (by simp)
    simp only [hne, if_false, hc, hchain]
    simp

/-- Witness for C5: client role, chain of two entries, not abbreviated:
the first chain entry leads and the whole chain is appended duplicated. -/
theorem getPeerCert_characterization_witness :
    X509Certificate.GetPeerCert (fun x => x + 100)
      ⟨some 7, some [3, 4]⟩ false false = some [3, 103, 104] :=
  (getPeerCert_characterization (fun x => x + 100)
    ⟨some 7, some [3, 4]⟩ false false).2.2 3 [4] rfl rfl

/-- A v8 context reference, compared by identity in Deserialize. -/
structure ContextRef where
  id : Nat
  deriving DecidableEq

/-- The node Environment as used here: it owns one creation context. -/
structure NodeEnvironment where
  context : ContextRef
  deriving DecidableEq

/-- X509CertificateTransferData: the worker::TransferData subclass holding
the captured shared_ptr of the ManagedX509 (modelled as the id of the
shared store entry it references). -/
structure X509CertificateTransferData where
  data : Nat
  deriving DecidableEq

/-- The X509Certificate BaseObject as reconstructed by Deserialize: bound
to the context of the environment, wrapping a shared ManagedX509
reference. -/
structure X509CertificateHandle where
  context : ContextRef
  cert : Nat
  deriving DecidableEq

/-- Outcome of X509CertificateTransferData::Deserialize: either the
reconstructed handle, or the thrown
ERR_MESSAGE_TARGET_CONTEXT_UNAVAILABLE. -/
inductive DeserializeResult where
  | ok (handle : X509CertificateHandle)
  | contextUnavailable
  deriving DecidableEq

namespace X509Certificate

/-- X509CertificateTransferData::Deserialize (src lines 490-506): if the
destination context is not the context of the destination environment,
throw ERR_MESSAGE_TARGET_CONTEXT_UNAVAILABLE; otherwise construct a new
X509Certificate in that environment directly from the captured shared
ManagedX509 reference (X509Certificate::New(env, data_)) with no decoding
step.  JS-level instantiation failure of New is not modelled. -/
def Deserialize (env : NodeEnvironment) (context : ContextRef)
    (self : X509CertificateTransferData) : DeserializeResult :=
  if context ≠ env.context then DeserializeResult.contextUnavailable
  else DeserializeResult.ok { context := env.context, cert := self.data }

/-- X509Certificate::CloneForMessaging (src lines 513-516): packages the
certificate by copying the shared ManagedX509 reference into a fresh
X509CertificateTransferData, with no re-decoding. -/
def CloneForMessaging (cert : X509CertificateHandle) :
    X509CertificateTransferData :=
  { data := cert.cert }

end X509Certificate

/-- C6: Deserialize fails with the context-unavailable error exactly when
the destination context differs from the destination environment context;
on success the produced handle is bound to that destination context and
wraps exactly the captured shared reference of the package; in particular
unpacking a CloneForMessaging package yields a handle sharing the original
handle reference, with no decoding involved. -/
theorem deserialize_context_guard (env : NodeEnvironment) (context : ContextRef)
    (self : X509CertificateTransferData) (orig : X509CertificateHandle) :
    (X509Certificate.Deserialize env context self
        = DeserializeResult.contextUnavailable ↔ context ≠ env.context) ∧
    (context = env.context →
        X509Certificate.Deserialize env context self
          = DeserializeResult.ok { context := context, cert := self.data }) ∧
    (context = env.context →
        X509Certificate.Deserialize env context
            (X509Certificate.CloneForMessaging orig)
          = DeserializeResult.ok { context := context, cert := orig.cert }) := by
  unfold X509Certificate.Deserialize X509Certificate.CloneForMessaging
  by_cases h : context = env.context
  · subst h
    simp
  · simp [h]

/-- Witness for C6: round trip through CloneForMessaging into the matching
context shares the certificate reference; a mismatched context fails. -/
theorem deserialize_context_guard_witness :
    X509Certificate.Deserialize ⟨⟨1⟩⟩ ⟨1⟩
        (X509Certificate.CloneForMessaging ⟨⟨0⟩, 42⟩)
      = DeserializeResult.ok ⟨⟨1⟩, 42⟩ ∧
    X509Certificate.Deserialize ⟨⟨1⟩⟩ ⟨2⟩ ⟨42⟩
      = DeserializeResult.contextUnavailable :=
  ⟨(deserialize_context_guard ⟨⟨1⟩⟩ ⟨1⟩ ⟨42⟩ ⟨⟨0⟩, 42⟩).2.2 rfl,
   (deserialize_context_guard ⟨⟨1⟩⟩ ⟨2⟩ ⟨42⟩ ⟨⟨0⟩, 42⟩).1.mpr (by decide)⟩

/-- The OpenSSL X509 object heap: the reference count of each object id
(0 meaning destroyed / never allocated) and its immutable decoded content
(abstractly, the DER bytes).  X509_up_ref and X509_free act only on
refcount; nothing in this translation unit writes content after
construction. -/
structure X509Store where
  refcount : X509 → Nat
  content : X509 → List Nat

/-- X509_up_ref: increment the reference count of one object. -/
def X509_up_ref (s : X509Store) (x : X509) : X509Store :=
  { s with refcount := fun y => if y = x then s.refcount y + 1 else s.refcount y }

/-- X509_free: decrement the reference count of one object; the count
reaching 0 is the destruction of the decoded value. -/
def X509_free (s : X509Store) (x : X509) : X509Store :=
  { s with refcount := fun y => if y = x then s.refcount y - 1 else s.refcount y }

/-- ManagedX509: an owning wrapper of a possibly null X509* (src header).
The pointer is modelled as Option of an object id into the store. -/
structure ManagedX509 where
  cert : Option X509
  deriving DecidableEq

namespace ManagedX509

/-- ManagedX509 copy constructor (src lines 35-46): the fresh object starts
with a null cert_, then operator= runs cert_.reset(that.get()) (releasing
nothing, since the fresh pointer is null) and X509_up_ref on the adopted
pointer if it is non-null.  Returns the new wrapper and the updated
store. -/
def copy (s : X509Store) (that : ManagedX509) : ManagedX509 × X509Store :=
  match that.cert with
  | none => (⟨none⟩, s)
  | some x => (⟨some x⟩, X509_up_ref s x)

/-- ManagedX509 destructor: X509Pointer releases its X509* with X509_free,
which decrements the count and destroys the object at 0. -/
def release (s : X509Store) (m : ManagedX509) : X509Store :=
  match m.cert with
  | none => s
  | some x => X509_free s x

end ManagedX509

/-- C7: copying a ManagedX509 yields a wrapper for the same underlying
decoded object (no decoder is involved), increments that object reference
count by exactly one, changes no other count, and leaves all decoded
content untouched; releasing a reference decrements the count by one, so
the object is destroyed (count 0) exactly when the released reference was
the last one; and cloning for cross-context transfer captures the same
shared reference.  No operation of this development mutates content. -/
theorem managedX509_refcount_sharing (s : X509Store) (that : ManagedX509)
    (x : X509) (h : that.cert = some x) (orig : X509CertificateHandle) :
    ((ManagedX509.copy s that).1.cert = that.cert) ∧
    ((ManagedX509.copy s that).2.refcount x = s.refcount x + 1) ∧
    (∀ y, y ≠ x → (ManagedX509.copy s that).2.refcount y = s.refcount y) ∧
    ((ManagedX509.copy s that).2.content = s.content) ∧
    ((ManagedX509.release s that).refcount x = s.refcount x - 1) ∧
    ((ManagedX509.release s that).refcount x = 0 ↔ s.refcount x ≤ 1) ∧
    ((ManagedX509.release s that).content = s.content) ∧
    ((X509Certificate.CloneForMessaging orig).data = orig.cert) := by
  unfold ManagedX509.copy ManagedX509.release X509_up_ref X509_free
    X509Certificate.CloneForMessaging
  rw [h]
  refine ⟨rfl, by simp, ?_, rfl, by simp, by simp; omega, rfl, rfl⟩
  intro y hy
  simp [hy]

/-- Witness for C7: copying a wrapper of object 3 in a store where object 3
has one reference leaves the count at two; a release then returns it to
one, not destroying it. -/
theorem managedX509_refcount_sharing_witness :
    (ManagedX509.copy ⟨fun _ => 1, fun _ => []⟩ ⟨some 3⟩).2.refcount 3 = 2 :=
  (managedX509_refcount_sharing ⟨fun _ => 1, fun _ => []⟩ ⟨some 3⟩ 3 rfl
    ⟨⟨0⟩, 0⟩).2.1

/-- The OpenSSL success code compared against by CheckIssued. -/
def X509_V_OK : Int := 0

namespace X509Certificate

/-- X509Certificate::CheckIssued (src lines 423-436): a single call
X509_check_issued(issuer, cert) compared against X509_V_OK; note the
argument order, the candidate issuer first.  No chain is built: the only
library call is this direct pairwise check. -/
def CheckIssued (prim : X509 → X509 → Int) (cert issuer : X509) : Bool :=
  decide (prim issuer cert = X509_V_OK)

end X509Certificate

/-- C8: CheckIssued is true exactly when the direct pairwise library check
of the candidate issuer against this certificate returns X509_V_OK; the
answer depends on nothing but that one pairwise result (no chain
construction or trust-path validation), and whenever the library pairwise
check succeeds on a certificate against itself, as it does for a
self-signed certificate, CheckIssued of the certificate with itself is
true. -/
theorem checkIssued_pairwise (prim prim2 : X509 → X509 → Int)
    (cert issuer : X509) :
    (X509Certificate.CheckIssued prim cert issuer = true
        ↔ prim issuer cert = X509_V_OK) ∧
    (prim issuer cert = prim2 issuer cert →
        X509Certificate.CheckIssued prim cert issuer
          = X509Certificate.CheckIssued prim2 cert issuer) ∧
    (prim cert cert = X509_V_OK →
        X509Certificate.CheckIssued prim cert cert = true) := by
  unfold X509Certificate.CheckIssued
  refine ⟨by simp, ?_, ?_⟩
  · intro h
    rw [h]
  · intro h
    simp [h]

/-- Witness for C8: a primitive succeeding on the pair (C, C) makes the
self-check true. -/
theorem checkIssued_pairwise_witness :
    X509Certificate.CheckIssued (fun _ _ => 0) 9 9 = true :=
  (checkIssued_pairwise (fun _ _ => 0) (fun _ _ => 0) 9 9).2.2 rfl

end crypto
